import Mathlib

/-!
Shallow embedding of `src/vm.rs` of the mythril VT-x virtual machine monitor
core: guest configuration, VirtualMachine construction (EPT setup, host-state
capture, guest-state programming, execution-control programming) and the
launch flag-check protocol.

Machine words (`u64` values, physical addresses, VMCS field values) are
modelled as `Nat`, with explicit 64-bit masking where the Rust code performs
wrapping/complement operations on `u64`.  A physical frame
(`PhysFrame<Size4KiB>`) is modelled by its start address.  The VMCS region is
modelled by the ordered trace of `(field, value)` writes performed on it
(most recent write first); reading a field returns the most recently written
value.  The frame allocator is modelled by the list of frame start addresses
it has left to hand out.

Collaborator modules of this slice (`error.rs`, `vmcs.rs`, `memory.rs`) are
not part of the source tree given here; the definitions taken from them are
marked `Modelled from the spec:` and follow the specification's description
of their interface.
-/

/-- Modelled from the spec: the typed error values of `error.rs` (not part of
this slice).  Per §7 the error kinds relevant here are allocation failure
(with a message, as built by `Error::AllocError("...")` in `vm.rs`) and
VM-instruction failure with an attached human-readable reason. -/
inductive Error
  | AllocError (msg : String)
  | VmFailure (msg : String)
deriving DecidableEq

/-- Description string attached to a typed error. -/
def Error.description : Error → String
  | Error.AllocError m => m
  | Error.VmFailure m => m

/-- Outcome of a fallible step of the embedded code: a typed error return
(`Err(e)` in Rust), or a panic (Rust `expect`/`unreachable`), which is not a
normal return and carries no typed error value. -/
inductive Failure
  | error (e : Error)
  | panicked (msg : String)
deriving DecidableEq

/-- Frame allocator state: the frames (each given by its start address) still
available, in the order they will be handed out. -/
structure FrameAlloc where
  frames : List Nat
deriving DecidableEq

/-- Model of `FrameAllocator::allocate_frame`: hands out the next available
frame, or `none` when exhausted. -/
def FrameAlloc.allocate_frame (a : FrameAlloc) : Option (Nat × FrameAlloc) :=
  match a.frames with
  | [] => none
  | f :: rest => some (f, ⟨rest⟩)

/-- Model of Rust `opt.ok_or(Error::AllocError(msg))?`: a failed allocation
becomes a typed allocation error. -/
def okOrAlloc (o : Option (Nat × FrameAlloc)) (msg : String) :
    Except Failure (Nat × FrameAlloc) :=
  match o with
  | some x => Except.ok x
  | none => Except.error (Failure.error (Error.AllocError msg))

/-- Model of Rust `opt.expect(msg)`: a failed allocation is a panic, not a
typed error return. -/
def expectAlloc (o : Option (Nat × FrameAlloc)) (msg : String) :
    Except Failure (Nat × FrameAlloc) :=
  match o with
  | some x => Except.ok x
  | none => Except.error (Failure.panicked msg)

/-- VMCS field identifiers used by `vm.rs` (the subset of `vmcs::VmcsField`
this slice touches). -/
inductive VmcsField
  | EptPointer
  | VirtualProcessorId
  | HostCr0
  | HostCr3
  | HostCr4
  | HostEsSelector
  | HostCsSelector
  | HostSsSelector
  | HostDsSelector
  | HostFsSelector
  | HostGsSelector
  | HostTrSelector
  | HostIa32SysenterCs
  | HostIa32SysenterEsp
  | HostIa32SysenterEip
  | HostIdtrBase
  | HostGdtrBase
  | HostFsBase
  | HostGsBase
  | HostTrBase
  | HostRsp
  | HostIa32Efer
  | HostRip
  | GuestEsSelector
  | GuestCsSelector
  | GuestSsSelector
  | GuestDsSelector
  | GuestFsSelector
  | GuestGsSelector
  | GuestTrSelector
  | GuestLdtrSelector
  | GuestEsBase
  | GuestCsBase
  | GuestSsBase
  | GuestDsBase
  | GuestFsBase
  | GuestGsBase
  | GuestTrBase
  | GuestLdtrBase
  | GuestIdtrBase
  | GuestGdtrBase
  | GuestEsLimit
  | GuestCsLimit
  | GuestSsLimit
  | GuestDsLimit
  | GuestFsLimit
  | GuestGsLimit
  | GuestTrLimit
  | GuestLdtrLimit
  | GuestIdtrLimit
  | GuestGdtrLimit
  | GuestEsArBytes
  | GuestSsArBytes
  | GuestDsArBytes
  | GuestFsArBytes
  | GuestGsArBytes
  | GuestCsArBytes
  | GuestLdtrArBytes
  | GuestTrArBytes
  | GuestInterruptibilityInfo
  | GuestActivityState
  | GuestDr7
  | GuestRsp
  | VmcsLinkPointer
  | VmcsLinkPointerHigh
  | GuestIa32Efer
  | GuestCr0
  | GuestCr4
  | GuestCr3
  | GuestRip
  | CpuBasedVmExecControl
  | PinBasedVmExecControl
  | VmExitControls
  | VmEntryControls
  | SecondaryVmExecControl
  | VirtualApicPageAddr
  | ExceptionBitmap
  | IoBitmapA
  | IoBitmapB
  | TprThreshold
deriving DecidableEq

/-- VMCS region inside an activation session, modelled by its write trace:
the list of `(field, value)` writes performed so far, most recent first. -/
structure TemporaryActiveVmcs where
  writes : List (VmcsField × Nat)
deriving DecidableEq

/-- Modelled from the spec: `Vmcs::write_field` of `vmcs.rs` (not part of this
slice).  Per §8, a field write inside a `TemporaryActive` session succeeds
and is readable back within the session; the trace records it. -/
def TemporaryActiveVmcs.write_field (v : TemporaryActiveVmcs) (f : VmcsField)
    (val : Nat) : TemporaryActiveVmcs :=
  ⟨(f, val) :: v.writes⟩

/-- Modelled from the spec: `Vmcs::read_field` of `vmcs.rs` (not part of this
slice): reading a field inside the session returns the value most recently
written to it (or `none` when the field was never written in this session). -/
def TemporaryActiveVmcs.read_field (v : TemporaryActiveVmcs) (f : VmcsField) :
    Option Nat :=
  (v.writes.find? (fun w => w.1 == f)).map (fun w => w.2)

/-- Write trace of a session in chronological order (oldest write first). -/
def TemporaryActiveVmcs.writesInOrder (v : TemporaryActiveVmcs) :
    List (VmcsField × Nat) :=
  v.writes.reverse

/-- Capability MSR identifiers passed to `write_with_fixed` by
`initialize_ctrl_vmcs` (the `registers::MSR_IA32_VMX_*` constants). -/
inductive VmxCapabilityMsr
  | MSR_IA32_VMX_PROCBASED_CTLS
  | MSR_IA32_VMX_PINBASED_CTLS
  | MSR_IA32_VMX_EXIT_CTLS
  | MSR_IA32_VMX_ENTRY_CTLS
deriving DecidableEq

/-- Values reported by the CPU's VMX capability and fixed-bit MSRs, an input
to construction.  For each control-field capability MSR the pair is
`(allowed0, allowed1)`: `allowed0` has a 1 in every bit position the CPU
requires to be 1 (the required-1 mask), `allowed1` has a 0 in every bit
position the CPU requires to be 0.  `cr0_fixed0` / `cr4_fixed0` are the
values of `MSR_IA32_VMX_CR0_FIXED0` / `MSR_IA32_VMX_CR4_FIXED0`. -/
structure VmxCapabilities where
  procbased_ctls : Nat × Nat
  pinbased_ctls : Nat × Nat
  exit_ctls : Nat × Nat
  entry_ctls : Nat × Nat
  cr0_fixed0 : Nat
  cr4_fixed0 : Nat
deriving DecidableEq

/-- Mask pair reported by a given capability MSR. -/
def VmxCapabilities.read (c : VmxCapabilities) : VmxCapabilityMsr → Nat × Nat
  | VmxCapabilityMsr.MSR_IA32_VMX_PROCBASED_CTLS => c.procbased_ctls
  | VmxCapabilityMsr.MSR_IA32_VMX_PINBASED_CTLS => c.pinbased_ctls
  | VmxCapabilityMsr.MSR_IA32_VMX_EXIT_CTLS => c.exit_ctls
  | VmxCapabilityMsr.MSR_IA32_VMX_ENTRY_CTLS => c.entry_ctls

/-- Modelled from the spec: the value computed by `Vmcs::write_with_fixed` of
`vmcs.rs` (not part of this slice).  Per §4.2 it computes
`(desired & allowed1) | required1` against the reported allowed-0/allowed-1
masks, where `required1` is the mask of bits the CPU forces to 1
(`caps.1 = allowed0`, `caps.2 = allowed1`). -/
def write_with_fixed_value (caps : Nat × Nat) (desired : Nat) : Nat :=
  (desired &&& caps.2) ||| caps.1

/-- Modelled from the spec: `Vmcs::write_with_fixed` of `vmcs.rs` (not part of
this slice): writes the capability-adjusted value to the field. -/
def TemporaryActiveVmcs.write_with_fixed (v : TemporaryActiveVmcs)
    (f : VmcsField) (desired : Nat) (msr : VmxCapabilityMsr)
    (caps : VmxCapabilities) : TemporaryActiveVmcs :=
  v.write_field f (write_with_fixed_value (caps.read msr) desired)

/-- Modelled from the spec: `vmcs::CpuBasedCtrlFlags::ACTIVATE_SECONDARY_CONTROLS`
(`vmcs.rs` is not part of this slice): the bit of the processor-based
execution control that activates the secondary-controls category. -/
def CpuBasedCtrlFlags.ACTIVATE_SECONDARY_CONTROLS : Nat := 1 <<< 31

/-- Modelled from the spec: `vmcs::VmExitCtrlFlags::IA32E_MODE` (`vmcs.rs` is
not part of this slice): the 64-bit host (IA-32e mode) exit-control bit. -/
def VmExitCtrlFlags.IA32E_MODE : Nat := 1 <<< 9

/-- Bitwise complement on a 64-bit value (Rust `!x` on `u64`), as a `Nat`. -/
def not64 (x : Nat) : Nat := (2 ^ 64 - 1) ^^^ (x % 2 ^ 64)

/-- Host execution environment read by the host-state capturer: the values of
the current control registers, descriptor-table bases, segment-base MSRs,
EFER, and the fixed address of `vmx::vmexit_handler_wrapper` (the exit
trampoline entry point, an external collaborator). -/
structure HostContext where
  cr0 : Nat
  cr3_base : Nat
  cr3_flags : Nat
  cr4 : Nat
  idtr_base : Nat
  gdtr_base : Nat
  fs_base : Nat
  gs_base : Nat
  efer : Nat
  vmexit_handler_wrapper : Nat
deriving DecidableEq

/-- Guest configuration (`VirtualMachineConfig` of `vm.rs`): the loaded
images (opaque byte blobs with destination guest-physical addresses) and the
requested memory size in 4k pages. -/
structure VirtualMachineConfig where
  images : List (List Nat × Nat)
  memory : Nat
deriving DecidableEq

/-- `VirtualMachineConfig::new(start_addr, memory)` from `vm.rs`: builds a
configuration with an empty image list and the given page count.  The
`start_addr` parameter is not used by the body. -/
def VirtualMachineConfig.new (_start_addr : Nat) (memory : Nat) :
    VirtualMachineConfig :=
  { images := [], memory := memory }

/-- `VirtualMachineConfig::load_image` from `vm.rs`: appends an image and
always returns `Ok(())`. -/
def VirtualMachineConfig.load_image (c : VirtualMachineConfig)
    (image : List Nat) (addr : Nat) : Except Failure VirtualMachineConfig :=
  Except.ok { c with images := c.images ++ [(image, addr)] }

/-- `VirtualMachine` of `vm.rs`: the configured control structure (its write
trace), the consumed configuration, and the host stack frame. -/
structure VirtualMachine where
  vmcs : TemporaryActiveVmcs
  config : VirtualMachineConfig
  stack : Nat
deriving DecidableEq

/-- Modelled from the spec: `Vmcs::new(alloc)` of `vmcs.rs` (not part of this
slice).  Per §4.1/§6 it allocates the one-page control-structure region;
allocator exhaustion is a typed allocation error (the call site in
`VirtualMachine::new` propagates it with `?`). -/
def Vmcs.new (alloc : FrameAlloc) : Except Failure (Nat × FrameAlloc) :=
  okOrAlloc alloc.allocate_frame ("Failed to allocate VMCS frame")

/-- Modelled from the spec: `memory::map_guest_memory` of `memory.rs` (not
part of this slice).  Per §4.3 it extends the four-level table hierarchy
below the already-allocated root so that `gpa` translates to `host_frame`,
allocating the missing intermediate tables (three levels for a single 4 KiB
mapping below a fresh root); allocator exhaustion surfaces as a typed
allocation error.  The established guest-physical-to-host-frame mapping is
returned as ghost data. -/
def map_guest_memory (alloc : FrameAlloc) (gpa : Nat) (host_frame : Nat) :
    Except Failure (List (Nat × Nat) × FrameAlloc) := do
  let (_pml3, alloc) ← okOrAlloc alloc.allocate_frame
    ("Failed to allocate an ept table")
  let (_pml2, alloc) ← okOrAlloc alloc.allocate_frame
    ("Failed to allocate an ept table")
  let (_pml1, alloc) ← okOrAlloc alloc.allocate_frame
    ("Failed to allocate an ept table")
  Except.ok ([(gpa, host_frame)], alloc)

/-- `VirtualMachine::setup_ept` from `vm.rs` (lines 68-102).  Allocates the
EPT PML4 root frame and the host frame backing the fixed guest address
`0xFFFFF000` (both with `.expect(..)`, i.e. a panic on exhaustion), maps that
single guest page, computes the EPT pointer (root address, memory type 6,
page-walk length `(4-1) << 3`, accessed/dirty bit `1 << 6`) and writes it and
the virtual-processor identifier `1`.  Returns the trace, remaining
allocator, ghost mapping list and the root frame. -/
def VirtualMachine.setup_ept (vmcs : TemporaryActiveVmcs) (alloc : FrameAlloc) :
    Except Failure (TemporaryActiveVmcs × FrameAlloc × List (Nat × Nat) × Nat) := do
  let (ept_pml4_frame, alloc) ← expectAlloc alloc.allocate_frame
    ("Failed to allocate pml4 frame")
  -- `EptPml4Table::new(&mut ept_pml4_frame).expect("Failed to create pml4
  -- table")`: table initialization in the fresh frame, no effect on the
  -- VMCS trace or the allocator.
  let (host_frame, alloc) ← expectAlloc alloc.allocate_frame
    ("Failed to allocate host frame")
  let (mappings, alloc) ← map_guest_memory alloc 0xFFFFF000 host_frame
  let eptp := ept_pml4_frame
  let eptp := eptp ||| 6
  let eptp := eptp ||| ((4 - 1) <<< 3)
  let eptp := eptp ||| (1 <<< 6)
  let vmcs := vmcs.write_field VmcsField.EptPointer eptp
  let vmcs := vmcs.write_field VmcsField.VirtualProcessorId 1
  Except.ok (vmcs, alloc, mappings, ept_pml4_frame)

/-- `VirtualMachine::initialize_host_vmcs` from `vm.rs` (lines 104-151; the
name is shortened here).  Captures the current host environment into the
host-state fields, allocates the host TR base frame (with `.expect(..)`, a
panic on exhaustion), and writes the host stack pointer (the stack frame's
start address) and host instruction pointer (the exit trampoline address). -/
def VirtualMachine.init_host_vmcs (ctx : HostContext) (alloc : FrameAlloc)
    (vmcs : TemporaryActiveVmcs) (stack : Nat) :
    Except Failure (TemporaryActiveVmcs × FrameAlloc) := do
  let vmcs := vmcs.write_field VmcsField.HostCr0 ctx.cr0
  let vmcs := vmcs.write_field VmcsField.HostCr3 (ctx.cr3_base ||| ctx.cr3_flags)
  let vmcs := vmcs.write_field VmcsField.HostCr4 ctx.cr4
  let vmcs := vmcs.write_field VmcsField.HostEsSelector 0x00
  let vmcs := vmcs.write_field VmcsField.HostCsSelector 0xe008
  let vmcs := vmcs.write_field VmcsField.HostSsSelector 0x00
  let vmcs := vmcs.write_field VmcsField.HostDsSelector 0x00
  let vmcs := vmcs.write_field VmcsField.HostFsSelector 0x00
  let vmcs := vmcs.write_field VmcsField.HostGsSelector 0x00
  let vmcs := vmcs.write_field VmcsField.HostTrSelector 0x10
  let vmcs := vmcs.write_field VmcsField.HostIa32SysenterCs 0x00
  let vmcs := vmcs.write_field VmcsField.HostIa32SysenterEsp 0x00
  let vmcs := vmcs.write_field VmcsField.HostIa32SysenterEip 0x00
  let vmcs := vmcs.write_field VmcsField.HostIdtrBase ctx.idtr_base
  let vmcs := vmcs.write_field VmcsField.HostGdtrBase ctx.gdtr_base
  let vmcs := vmcs.write_field VmcsField.HostFsBase ctx.fs_base
  let vmcs := vmcs.write_field VmcsField.HostGsBase ctx.gs_base
  let (tr_base_frame, alloc) ← expectAlloc alloc.allocate_frame
    ("Failed to allocate host tr base frame")
  let vmcs := vmcs.write_field VmcsField.HostTrBase tr_base_frame
  let vmcs := vmcs.write_field VmcsField.HostRsp stack
  let vmcs := vmcs.write_field VmcsField.HostIa32Efer ctx.efer
  let vmcs := vmcs.write_field VmcsField.HostRip ctx.vmexit_handler_wrapper
  Except.ok (vmcs, alloc)

/-- `VirtualMachine::initialize_guest_vmcs` from `vm.rs` (lines 153-220; the
name is shortened here).  Programs the minimal real-mode-like initial guest
state; guest CR0 is the CR0 fixed-to-1 MSR value with the PE bit (bit 0) and
PG bit (bit 31) cleared (Rust `cr0_fixed0 &= !(1 << 0); cr0_fixed0 &=
!(1 << 31)` on `u64`), guest CR4 is the CR4 fixed-to-1 MSR value, and the
guest instruction pointer is the placeholder entry address `0xFFFFF000`. -/
def VirtualMachine.init_guest_vmcs (caps : VmxCapabilities)
    (vmcs : TemporaryActiveVmcs) : TemporaryActiveVmcs :=
  let vmcs := vmcs.write_field VmcsField.GuestEsSelector 0x00
  let vmcs := vmcs.write_field VmcsField.GuestCsSelector 0x00
  let vmcs := vmcs.write_field VmcsField.GuestSsSelector 0x00
  let vmcs := vmcs.write_field VmcsField.GuestDsSelector 0x00
  let vmcs := vmcs.write_field VmcsField.GuestFsSelector 0x00
  let vmcs := vmcs.write_field VmcsField.GuestGsSelector 0x00
  let vmcs := vmcs.write_field VmcsField.GuestTrSelector 0x00
  let vmcs := vmcs.write_field VmcsField.GuestLdtrSelector 0x00
  let vmcs := vmcs.write_field VmcsField.GuestEsBase 0x00
  let vmcs := vmcs.write_field VmcsField.GuestCsBase 0x00
  let vmcs := vmcs.write_field VmcsField.GuestSsBase 0x00
  let vmcs := vmcs.write_field VmcsField.GuestDsBase 0x00
  let vmcs := vmcs.write_field VmcsField.GuestFsBase 0x00
  let vmcs := vmcs.write_field VmcsField.GuestGsBase 0x00
  let vmcs := vmcs.write_field VmcsField.GuestTrBase 0x00
  let vmcs := vmcs.write_field VmcsField.GuestLdtrBase 0x00
  let vmcs := vmcs.write_field VmcsField.GuestIdtrBase 0x00
  let vmcs := vmcs.write_field VmcsField.GuestGdtrBase 0x00
  let vmcs := vmcs.write_field VmcsField.GuestEsLimit 0xffff
  let vmcs := vmcs.write_field VmcsField.GuestCsLimit 0xffff
  let vmcs := vmcs.write_field VmcsField.GuestSsLimit 0xffff
  let vmcs := vmcs.write_field VmcsField.GuestDsLimit 0xffff
  let vmcs := vmcs.write_field VmcsField.GuestFsLimit 0xffff
  let vmcs := vmcs.write_field VmcsField.GuestGsLimit 0xffff
  let vmcs := vmcs.write_field VmcsField.GuestTrLimit 0xffff
  let vmcs := vmcs.write_field VmcsField.GuestLdtrLimit 0xffff
  let vmcs := vmcs.write_field VmcsField.GuestIdtrLimit 0xffff
  let vmcs := vmcs.write_field VmcsField.GuestGdtrLimit 0xffff
  let vmcs := vmcs.write_field VmcsField.GuestEsArBytes 0xc093
  let vmcs := vmcs.write_field VmcsField.GuestSsArBytes 0xc093
  let vmcs := vmcs.write_field VmcsField.GuestDsArBytes 0xc093
  let vmcs := vmcs.write_field VmcsField.GuestFsArBytes 0xc093
  let vmcs := vmcs.write_field VmcsField.GuestGsArBytes 0xc093
  let vmcs := vmcs.write_field VmcsField.GuestCsArBytes 0xc09b
  let vmcs := vmcs.write_field VmcsField.GuestLdtrArBytes 0x0082
  let vmcs := vmcs.write_field VmcsField.GuestTrArBytes 0x008b
  let vmcs := vmcs.write_field VmcsField.GuestInterruptibilityInfo 0x00
  let vmcs := vmcs.write_field VmcsField.GuestActivityState 0x00
  let vmcs := vmcs.write_field VmcsField.GuestDr7 0x00
  let vmcs := vmcs.write_field VmcsField.GuestRsp 0x00
  let vmcs := vmcs.write_field VmcsField.VmcsLinkPointer 0xffffffff
  let vmcs := vmcs.write_field VmcsField.VmcsLinkPointerHigh 0xffffffff
  let vmcs := vmcs.write_field VmcsField.GuestIa32Efer 0x00
  let cr0_fixed0 := caps.cr0_fixed0
  let cr0_fixed0 := cr0_fixed0 &&& not64 (1 <<< 0)
  let cr0_fixed0 := cr0_fixed0 &&& not64 (1 <<< 31)
  let cr4_fixed0 := caps.cr4_fixed0
  let guest_cr0 := cr0_fixed0
  let guest_cr4 := cr4_fixed0
  let vmcs := vmcs.write_field VmcsField.GuestCr0 guest_cr0
  let vmcs := vmcs.write_field VmcsField.GuestCr4 guest_cr4
  let vmcs := vmcs.write_field VmcsField.GuestCr3 0x00
  let vmcs := vmcs.write_field VmcsField.GuestRip 0xFFFFF000
  vmcs

/-- `VirtualMachine::initialize_ctrl_vmcs` from `vm.rs` (lines 222-309; the
name is shortened here).  Programs the execution controls through
`write_with_fixed`, allocates the first virtual-APIC frame, writes its
address, writes the exception bitmap `0xffffffff`, allocates and writes the
two I/O bitmap frames, allocates a second virtual-APIC frame, writes its
address over the virtual-APIC field, and writes the TPR threshold.  The
diagnostic `read_field` + `info!` logging pairs of the source have no effect
on the trace or the allocator and are elided. -/
def VirtualMachine.init_ctrl_vmcs (caps : VmxCapabilities)
    (vmcs : TemporaryActiveVmcs) (alloc : FrameAlloc) :
    Except Failure (TemporaryActiveVmcs × FrameAlloc) := do
  let vmcs := vmcs.write_with_fixed VmcsField.CpuBasedVmExecControl
    CpuBasedCtrlFlags.ACTIVATE_SECONDARY_CONTROLS
    VmxCapabilityMsr.MSR_IA32_VMX_PROCBASED_CTLS caps
  let vmcs := vmcs.write_with_fixed VmcsField.PinBasedVmExecControl 0
    VmxCapabilityMsr.MSR_IA32_VMX_PINBASED_CTLS caps
  let vmcs := vmcs.write_with_fixed VmcsField.VmExitControls
    VmExitCtrlFlags.IA32E_MODE VmxCapabilityMsr.MSR_IA32_VMX_EXIT_CTLS caps
  -- `read_field(VmExitControls)` + logging: elided (no state effect).
  let vmcs := vmcs.write_with_fixed VmcsField.VmEntryControls 0
    VmxCapabilityMsr.MSR_IA32_VMX_ENTRY_CTLS caps
  -- The `SecondaryVmExecControl` write is commented out in the source.
  let (vapic, alloc) ← okOrAlloc alloc.allocate_frame
    ("Failed to allocate VAPIC")
  let vmcs := vmcs.write_field VmcsField.VirtualApicPageAddr vapic
  let vmcs := vmcs.write_field VmcsField.ExceptionBitmap 0xffffffff
  -- `read_field(CpuBasedVmExecControl)` / `read_field(SecondaryVmExecControl)`
  -- + logging: elided (no state effect).
  let (bitmap_a, alloc) ← okOrAlloc alloc.allocate_frame
    ("Failed to allocate IO bitmap")
  let (bitmap_b, alloc) ← okOrAlloc alloc.allocate_frame
    ("Failed to allocate IO bitmap")
  let vmcs := vmcs.write_field VmcsField.IoBitmapA bitmap_a
  let vmcs := vmcs.write_field VmcsField.IoBitmapB bitmap_b
  let (vapic_frame, alloc) ← okOrAlloc alloc.allocate_frame
    ("Failed to allocate VAPIC frame")
  let vmcs := vmcs.write_field VmcsField.VirtualApicPageAddr vapic_frame
  let vmcs := vmcs.write_field VmcsField.TprThreshold 0
  Except.ok (vmcs, alloc)

/-- `VirtualMachine::new` from `vm.rs` (lines 42-66).  Allocates the control
structure and the stack frame, then, inside one activation session, runs EPT
setup, host-state capture, guest-state programming and execution-control
programming in that order; any failure aborts construction.  On success the
machine, the ghost list of guest mappings established by EPT setup, and the
remaining allocator are returned. -/
def VirtualMachine.new (ctx : HostContext) (caps : VmxCapabilities)
    (alloc : FrameAlloc) (config : VirtualMachineConfig) :
    Except Failure (VirtualMachine × List (Nat × Nat) × FrameAlloc) := do
  let (_vmcs_frame, alloc) ← Vmcs.new alloc
  let (stack, alloc) ← okOrAlloc alloc.allocate_frame
    ("Failed to allocate VM stack")
  let vmcs0 : TemporaryActiveVmcs := ⟨[]⟩
  let (vmcs1, alloc, mappings, _ept_root) ← VirtualMachine.setup_ept vmcs0 alloc
  let (vmcs2, alloc) ← VirtualMachine.init_host_vmcs ctx alloc vmcs1 stack
  let vmcs3 := VirtualMachine.init_guest_vmcs caps vmcs2
  let (vmcs4, alloc) ← VirtualMachine.init_ctrl_vmcs caps vmcs3 alloc
  Except.ok ({ vmcs := vmcs4, config := config, stack := stack }, mappings, alloc)

/-- Observable outcome of `VirtualMachine::launch` after the VM-entry
instruction: either a typed error return, or control was transferred to the
guest and the function does not return through normal means (the
`unreachable!()` after the flag check is never executed, because a
fall-through from the entry instruction always sets a condition flag). -/
inductive LaunchOutcome
  | err (e : Error)
  | enteredGuest
deriving DecidableEq

/-- Modelled from the spec: `error::check_vm_insruction` of `error.rs` (not
part of this slice; the name, including its spelling, is the source's).  Per
§4.1/§7 it inspects the carry flag (rflags bit 0) and zero flag (rflags bit
6) captured immediately after the VM-entry instruction; if either is set the
entry failed and a VM-instruction failure with the given reason is returned,
otherwise it returns success. -/
def check_vm_insruction (rflags : Nat) (error : String) : Except Error Unit :=
  if rflags.testBit 0 || rflags.testBit 6 then
    Except.error (Error.VmFailure error)
  else
    Except.ok ()

/-- Post-entry path of `VirtualMachine::launch` from `vm.rs` (lines 311-331),
as a function of the rflags value captured immediately after the `vmlaunch`
instruction.  (The preceding `self.vmcs.activate(vmx)?` re-activation is
modelled as having succeeded; its failure path does not reach the entry
instruction.)  The flag check either propagates a typed error, or the entry
succeeded and control is in the guest. -/
def VirtualMachine.launch (rflags : Nat) : LaunchOutcome :=
  match check_vm_insruction rflags ("Failed to launch vm") with
  | Except.error e => LaunchOutcome.err e
  | Except.ok _ => LaunchOutcome.enteredGuest

/-! ## Fixtures for concrete witnesses -/

/-- Sample host context for concrete evaluations. -/
def ctx0 : HostContext := ⟨0, 0, 0, 0, 0, 0, 0, 0, 0, 0x9000⟩

/-- Sample capability MSR values for concrete evaluations. -/
def caps0 : VmxCapabilities := ⟨(0, 0), (0, 0), (0, 0), (0, 0), 0, 0⟩

/-- Sample capability MSR values with a mixed processor-based mask pair:
`allowed0 = 4`, `allowed1 = 14`. -/
def caps2 : VmxCapabilities := ⟨(4, 14), (0, 0), (0, 0), (0, 0), 0, 0⟩

/-- Sample capability MSR values with concrete CR0/CR4 fixed-to-1 values. -/
def caps5 : VmxCapabilities := ⟨(0, 0), (0, 0), (0, 0), (0, 0), 0xE0000031, 0x2000⟩

/-- Sample configuration: 4 pages of memory, no images. -/
def config0 : VirtualMachineConfig := VirtualMachineConfig.new 0 4

/-! ## Helper lemmas -/

/-- Reading a field immediately after writing it returns the written value. -/
theorem read_field_write_field_self (v : TemporaryActiveVmcs) (f : VmcsField)
    (val : Nat) : (v.write_field f val).read_field f = some val := by
  simp [TemporaryActiveVmcs.write_field, TemporaryActiveVmcs.read_field]

/-- Bit `i` of the 64-bit complement of `1 <<< 0`. -/
theorem not64_one_testBit (i : Nat) :
    (not64 (1 <<< 0)).testBit i = (decide (i < 64) ^^ decide (0 = i)) := by
  have h : (1 <<< 0) % 2 ^ 64 = 2 ^ 0 := by decide
  unfold not64
  rw [h, Nat.testBit_xor, Nat.testBit_two_pow_sub_one, Nat.testBit_two_pow]

/-- Bit `i` of the 64-bit complement of `1 <<< 31`. -/
theorem not64_shift31_testBit (i : Nat) :
    (not64 (1 <<< 31)).testBit i = (decide (i < 64) ^^ decide (31 = i)) := by
  have h : (1 <<< 31) % 2 ^ 64 = 2 ^ 31 := by decide
  unfold not64
  rw [h, Nat.testBit_xor, Nat.testBit_two_pow_sub_one, Nat.testBit_two_pow]

/-! ## Claim theorems -/

/-- C1: for every rflags value captured immediately after the VM-entry
instruction, if the carry flag (bit 0) or zero flag (bit 6) is set, `launch`
returns the typed VM-instruction failure with its non-empty description, and
does not proceed to any post-entry code path; if neither is set, control has
transferred to the guest and `launch` does not return through normal means. -/
theorem C1_launch_flag_protocol (rflags : Nat) :
    ((rflags.testBit 0 = true ∨ rflags.testBit 6 = true) →
      VirtualMachine.launch rflags
          = LaunchOutcome.err (Error.VmFailure ("Failed to launch vm"))
        ∧ (Error.VmFailure ("Failed to launch vm")).description ≠ "")
  ∧ (rflags.testBit 0 = false → rflags.testBit 6 = false →
      VirtualMachine.launch rflags = LaunchOutcome.enteredGuest) := by
  constructor
  · intro h
    refine ⟨?_, by decide⟩
    unfold VirtualMachine.launch check_vm_insruction
    rcases h with h | h <;> simp [h]
  · intro h0 h6
    unfold VirtualMachine.launch check_vm_insruction
    simp [h0, h6]

/-- Witness for C1 at rflags = 1 (carry flag set) and rflags = 0 (neither
flag set). -/
theorem C1_launch_flag_protocol_witness :
    (VirtualMachine.launch 1
        = LaunchOutcome.err (Error.VmFailure ("Failed to launch vm"))
      ∧ (Error.VmFailure ("Failed to launch vm")).description ≠ "")
  ∧ VirtualMachine.launch 0 = LaunchOutcome.enteredGuest :=
  ⟨(C1_launch_flag_protocol 1).1 (Or.inl (by decide)),
   (C1_launch_flag_protocol 0).2 (by decide) (by decide)⟩

/-- C2: the constrained write stores `(desired & allowed1) | required1` (with
`required1 = allowed0`); for every capability-reported mask pair — a pair in
which each bit forced to 1 is also allowed to be 1, `allowed0 &&& allowed1 =
allowed0` — every bit forced to 1 by `allowed0` is 1 in the written value,
every bit forced to 0 by `allowed1` is 0, and every other bit equals the
caller's desired bit. -/
theorem C2_write_with_fixed_masks (desired allowed0 allowed1 : Nat)
    (v : TemporaryActiveVmcs) (f : VmcsField) (msr : VmxCapabilityMsr)
    (caps : VmxCapabilities) (hread : caps.read msr = (allowed0, allowed1))
    (hcap : allowed0 &&& allowed1 = allowed0) :
    (v.write_with_fixed f desired msr caps).read_field f
        = some (write_with_fixed_value (allowed0, allowed1) desired)
  ∧ write_with_fixed_value (allowed0, allowed1) desired
        = (desired &&& allowed1) ||| allowed0
  ∧ (∀ i, allowed0.testBit i = true →
      (write_with_fixed_value (allowed0, allowed1) desired).testBit i = true)
  ∧ (∀ i, allowed1.testBit i = false →
      (write_with_fixed_value (allowed0, allowed1) desired).testBit i = false)
  ∧ (∀ i, allowed0.testBit i = false → allowed1.testBit i = true →
      (write_with_fixed_value (allowed0, allowed1) desired).testBit i
        = desired.testBit i) := by
  refine ⟨?_, rfl, ?_, ?_, ?_⟩
  · unfold TemporaryActiveVmcs.write_with_fixed
    rw [hread]
    exact read_field_write_field_self v f _
  · intro i hi
    simp [write_with_fixed_value, hi]
  · intro i hi
    have h0 : allowed0.testBit i = false := by
      have := congrArg (fun x => x.testBit i) hcap
      simpa [hi] using this.symm
    simp [write_with_fixed_value, hi, h0]
  · intro i h0 h1
    simp [write_with_fixed_value, h0, h1]

/-- Witness for C2 at desired = 10, allowed0 = 4, allowed1 = 14: the written
value is `(10 & 14) | 4 = 14`; the forced-1 bit 2 is 1, the forced-0 bit 0 is
0, and the free bit 1 equals the desired bit. -/
theorem C2_write_with_fixed_masks_witness :
    (TemporaryActiveVmcs.write_with_fixed ⟨[]⟩ VmcsField.CpuBasedVmExecControl
        10 VmxCapabilityMsr.MSR_IA32_VMX_PROCBASED_CTLS caps2).read_field
        VmcsField.CpuBasedVmExecControl
      = some (write_with_fixed_value (4, 14) 10)
  ∧ write_with_fixed_value (4, 14) 10 = (10 &&& 14) ||| 4
  ∧ (write_with_fixed_value (4, 14) 10).testBit 2 = true
  ∧ (write_with_fixed_value (4, 14) 10).testBit 0 = false
  ∧ (write_with_fixed_value (4, 14) 10).testBit 1 = true := by
  have h := C2_write_with_fixed_masks 10 4 14 ⟨[]⟩
    VmcsField.CpuBasedVmExecControl VmxCapabilityMsr.MSR_IA32_VMX_PROCBASED_CTLS
    caps2 rfl (by decide)
  exact ⟨h.1, h.2.1, h.2.2.1 2 (by decide), h.2.2.2.1 0 (by decide),
    (h.2.2.2.2 1 (by decide) (by decide)).trans (by decide)⟩

/-- C3 (code bug): with an allocator that fails on the third allocation (the
EPT PML4 root frame), `VirtualMachine::new` does not return a typed
allocation error as the spec requires: it panics through
`.expect("Failed to allocate pml4 frame")` in `setup_ept`. -/
theorem C3_third_allocation_panics :
    VirtualMachine.new ctx0 caps0 ⟨[0x1000, 0x2000]⟩ config0
      = Except.error (Failure.panicked ("Failed to allocate pml4 frame")) := by
  rfl

/-- C4: for every successful construction (an allocator holding the twelve
frames construction consumes), the address-space builder establishes exactly
the single mapping from the fixed guest physical address `0xFFFFF000` to the
fourth allocated frame (the freshly allocated host frame), and the guest
instruction pointer field of the resulting machine reads back as
`0xFFFFF000`. -/
theorem C4_single_mapping_guest_rip
    (ctx : HostContext) (caps : VmxCapabilities) (config : VirtualMachineConfig)
    (f1 f2 f3 f4 f5 f6 f7 f8 f9 f10 f11 f12 : Nat) (rest : List Nat) :
    ∃ vm alloc',
      VirtualMachine.new ctx caps
          ⟨[f1, f2, f3, f4, f5, f6, f7, f8, f9, f10, f11, f12] ++ rest⟩ config
        = Except.ok (vm, [(0xFFFFF000, f4)], alloc')
      ∧ vm.vmcs.read_field VmcsField.GuestRip = some 0xFFFFF000 :=
  ⟨_, _, rfl, rfl⟩

/-- C5: guest-state programming writes GuestCr0 as the reported CR0
fixed-to-1 value with the protection-enable bit (bit 0) and the paging bit
(bit 31) cleared — every other bit unchanged — and GuestCr4 as the reported
CR4 fixed-to-1 value unchanged. -/
theorem C5_guest_cr0_cr4 (caps : VmxCapabilities) (v : TemporaryActiveVmcs)
    (h64 : caps.cr0_fixed0 < 2 ^ 64) :
    (VirtualMachine.init_guest_vmcs caps v).read_field VmcsField.GuestCr0
        = some ((caps.cr0_fixed0 &&& not64 (1 <<< 0)) &&& not64 (1 <<< 31))
  ∧ ((caps.cr0_fixed0 &&& not64 (1 <<< 0)) &&& not64 (1 <<< 31)).testBit 0
        = false
  ∧ ((caps.cr0_fixed0 &&& not64 (1 <<< 0)) &&& not64 (1 <<< 31)).testBit 31
        = false
  ∧ (∀ i, i ≠ 0 → i ≠ 31 →
      ((caps.cr0_fixed0 &&& not64 (1 <<< 0)) &&& not64 (1 <<< 31)).testBit i
        = caps.cr0_fixed0.testBit i)
  ∧ (VirtualMachine.init_guest_vmcs caps v).read_field VmcsField.GuestCr4
        = some caps.cr4_fixed0 := by
  refine ⟨rfl, ?_, ?_, ?_, rfl⟩
  · simp only [Nat.testBit_and, not64_one_testBit, not64_shift31_testBit]
    simp
  · simp only [Nat.testBit_and, not64_one_testBit, not64_shift31_testBit]
    simp
  · intro i hi0 hi31
    by_cases hlt : i < 64
    · have e0 : (0 = i) = False := by
        simp [eq_comm]
        exact hi0
      have e31 : (31 = i) = False := by
        simp [eq_comm]
        exact hi31
      simp only [Nat.testBit_and, not64_one_testBit, not64_shift31_testBit]
      simp [hlt, e0, e31]
    · have hge : 2 ^ 64 ≤ 2 ^ i := Nat.pow_le_pow_right (by omega) (by omega)
      have hc : caps.cr0_fixed0.testBit i = false :=
        Nat.testBit_lt_two_pow (lt_of_lt_of_le h64 hge)
      simp [Nat.testBit_and, hc]

/-- Witness for C5 at `cr0_fixed0 = 0xE0000031` (bits 0, 4, 5, 29, 30, 31)
and `cr4_fixed0 = 0x2000`: GuestCr0 reads back as `0x60000030` (bits 0 and 31
cleared) and GuestCr4 as `0x2000`. -/
theorem C5_guest_cr0_cr4_witness :
    (VirtualMachine.init_guest_vmcs caps5 ⟨[]⟩).read_field VmcsField.GuestCr0
        = some 0x60000030
  ∧ (VirtualMachine.init_guest_vmcs caps5 ⟨[]⟩).read_field VmcsField.GuestCr4
        = some 0x2000 := by
  have h := C5_guest_cr0_cr4 caps5 ⟨[]⟩ (by decide)
  exact ⟨h.1.trans (by decide), h.2.2.2.2⟩

/-- C6 (amended): host-state capture writes the host stack pointer field with
the start (lowest) address of the freshly allocated stack frame — not the
frame's top — and the host instruction pointer field with the fixed address
of the exit-trampoline entry point `vmexit_handler_wrapper`. -/
theorem C6_host_rsp_rip (ctx : HostContext) (v : TemporaryActiveVmcs)
    (trf : Nat) (rest : List Nat) (stack : Nat) :
    ∃ vmcs' alloc',
      VirtualMachine.init_host_vmcs ctx ⟨trf :: rest⟩ v stack
        = Except.ok (vmcs', alloc')
      ∧ vmcs'.read_field VmcsField.HostRsp = some stack
      ∧ vmcs'.read_field VmcsField.HostRip = some ctx.vmexit_handler_wrapper :=
  ⟨_, _, rfl, rfl, rfl⟩

/-- Specification-side definition, following the spec's words: the top of a
freshly allocated 4 KiB stack frame whose start (lowest) address is
`frame_start` is the high end of the frame, `frame_start + 4096` (an x86-64
stack grows downward from its top). -/
def stackTop (frame_start : Nat) : Nat := frame_start + 4096

/-- Projection of the HostRsp field out of a host-state-capture result. -/
def hostRspOf (r : Except Failure (TemporaryActiveVmcs × FrameAlloc)) :
    Option Nat :=
  match r with
  | Except.ok p => p.1.read_field VmcsField.HostRsp
  | Except.error _ => none

/-- Counterexample for C6 as stated: for a stack frame starting at `0x5000`,
the host stack pointer field is written with `0x5000`, the frame's start
address, while the top of the frame is `0x6000`; the field does not hold the
top of the stack frame. -/
theorem C6_counterexample_host_rsp_not_top :
    hostRspOf (VirtualMachine.init_host_vmcs ctx0 ⟨[0x7000]⟩ ⟨[]⟩ 0x5000)
        = some 0x5000
  ∧ stackTop 0x5000 = 0x6000
  ∧ hostRspOf (VirtualMachine.init_host_vmcs ctx0 ⟨[0x7000]⟩ ⟨[]⟩ 0x5000)
        ≠ some (stackTop 0x5000) := by
  refine ⟨rfl, rfl, ?_⟩
  decide

/-- C7: for every successfully allocated root table, the EPT pointer field is
written with the root frame's physical address combined with the memory-type
selector 6, the page-walk length `(4 - 1) <<< 3`, and the accessed/dirty
enable bit `1 <<< 6`, and the virtual-processor identifier field is written
with the isolation tag 1. -/
theorem C7_ept_pointer_and_vpid (v : TemporaryActiveVmcs)
    (p hf i1 i2 i3 : Nat) (rest : List Nat) :
    ∃ vmcs' alloc' maps,
      VirtualMachine.setup_ept v ⟨p :: hf :: i1 :: i2 :: i3 :: rest⟩
          = Except.ok (vmcs', alloc', maps, p)
      ∧ vmcs'.read_field VmcsField.EptPointer
          = some (((p ||| 6) ||| ((4 - 1) <<< 3)) ||| (1 <<< 6))
      ∧ vmcs'.read_field VmcsField.VirtualProcessorId = some 1 :=
  ⟨_, _, _, rfl, rfl, rfl⟩

/-- C8: execution-control programming writes the processor-based control with
the activate-secondary-controls flag and the exit controls with the 64-bit
host mode flag, each value adjusted by the capability-constrained writer
against the corresponding capability MSR pair, and writes the exception
bitmap field with `0xffffffff` — all 32 exception-class bits set. -/
theorem C8_ctrl_controls (caps : VmxCapabilities) (v : TemporaryActiveVmcs)
    (va ba bb vf : Nat) (rest : List Nat) :
    ∃ vmcs' alloc',
      VirtualMachine.init_ctrl_vmcs caps v ⟨va :: ba :: bb :: vf :: rest⟩
        = Except.ok (vmcs', alloc')
      ∧ vmcs'.read_field VmcsField.CpuBasedVmExecControl
          = some (write_with_fixed_value caps.procbased_ctls
              CpuBasedCtrlFlags.ACTIVATE_SECONDARY_CONTROLS)
      ∧ vmcs'.read_field VmcsField.VmExitControls
          = some (write_with_fixed_value caps.exit_ctls
              VmExitCtrlFlags.IA32E_MODE)
      ∧ vmcs'.read_field VmcsField.ExceptionBitmap = some 0xffffffff
      ∧ (0xffffffff : Nat) = 2 ^ 32 - 1 :=
  ⟨_, _, rfl, rfl, rfl, rfl, by norm_num⟩

/-- C9: for every start address and memory page count,
`VirtualMachineConfig::new` returns a configuration whose image list is empty
and whose memory field is the given page count; the start-address argument
has no effect on the returned configuration. -/
theorem C9_config_new_ignores_start_addr (start_addr memory : Nat) :
    (VirtualMachineConfig.new start_addr memory).images = []
  ∧ (VirtualMachineConfig.new start_addr memory).memory = memory
  ∧ (∀ other : Nat, VirtualMachineConfig.new start_addr memory
      = VirtualMachineConfig.new other memory) :=
  ⟨rfl, rfl, fun _ => rfl⟩

/-- C10: during execution-control programming two distinct virtual-APIC
frames are allocated and the virtual-APIC page-address field is written
twice: in chronological order first with the first frame's address, then with
the second frame's address; the field's final value is the second frame's
address, and after its single write the first frame's address never appears
in any later write. -/
theorem C10_vapic_double_write (caps : VmxCapabilities)
    (v : TemporaryActiveVmcs) (va ba bb vf : Nat) (rest : List Nat)
    (hvf : va ≠ vf) (hba : va ≠ ba) (hbb : va ≠ bb)
    (h0 : va ≠ 0) (hff : va ≠ 0xffffffff) :
    ∃ vmcs' alloc',
      VirtualMachine.init_ctrl_vmcs caps v ⟨va :: ba :: bb :: vf :: rest⟩
          = Except.ok (vmcs', alloc')
      ∧ vmcs'.writes
          = [(VmcsField.TprThreshold, 0),
             (VmcsField.VirtualApicPageAddr, vf),
             (VmcsField.IoBitmapB, bb),
             (VmcsField.IoBitmapA, ba),
             (VmcsField.ExceptionBitmap, 0xffffffff),
             (VmcsField.VirtualApicPageAddr, va),
             (VmcsField.VmEntryControls,
               write_with_fixed_value caps.entry_ctls 0),
             (VmcsField.VmExitControls,
               write_with_fixed_value caps.exit_ctls VmExitCtrlFlags.IA32E_MODE),
             (VmcsField.PinBasedVmExecControl,
               write_with_fixed_value caps.pinbased_ctls 0),
             (VmcsField.CpuBasedVmExecControl,
               write_with_fixed_value caps.procbased_ctls
                 CpuBasedCtrlFlags.ACTIVATE_SECONDARY_CONTROLS)] ++ v.writes
      ∧ ((vmcs'.writes.take 10).reverse.filter
            (fun w => w.1 == VmcsField.VirtualApicPageAddr)).map (fun w => w.2)
          = [va, vf]
      ∧ vmcs'.read_field VmcsField.VirtualApicPageAddr = some vf
      ∧ va ≠ vf
      ∧ va ∉ (vmcs'.writes.take 5).map (fun w => w.2) := by
  refine ⟨_, _, rfl, rfl, rfl, rfl, hvf, ?_⟩
  simp only [List.take, List.map, List.mem_cons, List.not_mem_nil]
  simp [h0, hvf, hbb, hba, hff]

/-- Witness for C10 with the four distinct concrete frames `0x1000`, `0x2000`,
`0x3000`, `0x4000`. -/
theorem C10_vapic_double_write_witness :
    ∃ vmcs' alloc',
      VirtualMachine.init_ctrl_vmcs caps0 ⟨[]⟩
          ⟨0x1000 :: 0x2000 :: 0x3000 :: 0x4000 :: []⟩
          = Except.ok (vmcs', alloc')
      ∧ vmcs'.writes
          = [(VmcsField.TprThreshold, 0),
             (VmcsField.VirtualApicPageAddr, 0x4000),
             (VmcsField.IoBitmapB, 0x3000),
             (VmcsField.IoBitmapA, 0x2000),
             (VmcsField.ExceptionBitmap, 0xffffffff),
             (VmcsField.VirtualApicPageAddr, 0x1000),
             (VmcsField.VmEntryControls,
               write_with_fixed_value caps0.entry_ctls 0),
             (VmcsField.VmExitControls,
               write_with_fixed_value caps0.exit_ctls VmExitCtrlFlags.IA32E_MODE),
             (VmcsField.PinBasedVmExecControl,
               write_with_fixed_value caps0.pinbased_ctls 0),
             (VmcsField.CpuBasedVmExecControl,
               write_with_fixed_value caps0.procbased_ctls
                 CpuBasedCtrlFlags.ACTIVATE_SECONDARY_CONTROLS)] ++
            (⟨[]⟩ : TemporaryActiveVmcs).writes
      ∧ ((vmcs'.writes.take 10).reverse.filter
            (fun w => w.1 == VmcsField.VirtualApicPageAddr)).map (fun w => w.2)
          = [0x1000, 0x4000]
      ∧ vmcs'.read_field VmcsField.VirtualApicPageAddr = some 0x4000
      ∧ (0x1000 : Nat) ≠ 0x4000
      ∧ (0x1000 : Nat) ∉ (vmcs'.writes.take 5).map (fun w => w.2) :=
  C10_vapic_double_write caps0 ⟨[]⟩ 0x1000 0x2000 0x3000 0x4000 []
    (by decide) (by decide) (by decide) (by decide) (by decide)
